import Mathlib

/-!
Shallow embedding of the RcloneAPI file-management backend
(`src/files.py`, `src/main.py`, `src/models.py`).

String primitives model the exact Python operations the endpoints use:
`str.replace("//", "/")` (single left-to-right non-overlapping pass),
`".." in s` (substring test), `pathlib.Path(p).resolve()` (lexical
normalization eliminating `.` and `..` segments against a working
directory), `bytes.strip()` and `os.path.join` / `pathlib /`.

Each HTTP endpoint is embedded as a pure function over an indexed
subprocess oracle `run : Nat → List String → ProcResult` (the n-th
spawned child process of the request, keyed by its argument vector),
returning the list of spawned argument vectors, the final HTTP
response, and — where claims need them — the final local filesystem
contents, the inserted database records, and an event trace.

Python exception semantics are embedded faithfully: every endpoint
body sits in a `try/except Exception` whose handler re-raises
`HTTPException(500, str(e))`; since FastAPI's `HTTPException` derives
from `Exception`, an inner `HTTPException(400, d)` is caught and
surfaces as status 500 with detail `"400: " ++ d` (Starlette's
`HTTPException.__str__`).
-/

namespace RcloneAPI

/-- Does the list start with the given pattern? (chars, exact). -/
def startsWithL : List Char → List Char → Bool
  | [], _ => true
  | _ :: _, [] => false
  | p :: ps, c :: cs => p = c && startsWithL ps cs

/-- Contiguous-substring test on character lists, modelling Python `pat in s`. -/
def containsSub (pat : List Char) : List Char → Bool
  | [] => pat.isEmpty
  | c :: cs => startsWithL pat (c :: cs) || containsSub pat cs

/-- Python `pat in s` on strings. -/
def strHasSub (s pat : String) : Bool := containsSub pat.data s.data

/-- Does the character list start with `'/'`? -/
def headIsSlash : List Char → Bool
  | [] => false
  | c :: _ => c = '/'

/-- Membership of a string in a list of strings. -/
def listHas (l : List String) (p : String) : Bool := l.any (fun q => q = p)

/-- One left-to-right, non-overlapping pass of `"//" → "/"`; the flag
records a pending, not yet emitted, `'/'`. This is exactly CPython's
`str.replace("//", "/")` scan. -/
def collapseAux : Bool → List Char → List Char
  | false, [] => []
  | true, [] => ['/']
  | false, c :: rest =>
      if c = '/' then collapseAux true rest else c :: collapseAux false rest
  | true, c :: rest =>
      if c = '/' then '/' :: collapseAux false rest
      else '/' :: c :: collapseAux false rest

/-- Python `s.replace("//", "/")` on character lists. -/
def collapseSlashes (l : List Char) : List Char := collapseAux false l

/-- Python `s.replace("//", "/")` on strings. -/
def pyReplaceSlash (s : String) : String := ⟨collapseSlashes s.data⟩

/-- Whitespace as stripped by Python `strip()`. -/
def isWsChar (c : Char) : Bool :=
  c = ' ' || c = '\n' || c = '\t' || c = '\r' || c = '\x0b' || c = '\x0c'

/-- Python `s.strip()`. -/
def stripWs (s : String) : String :=
  ⟨((s.data.dropWhile isWsChar).reverse.dropWhile isWsChar).reverse⟩

/-- Splitting on `'/'` over character lists (kernel-reducible). -/
def splitCharAux : List Char → List Char → List (List Char)
  | [], acc => [acc.reverse]
  | c :: rest, acc =>
      if c = '/' then acc.reverse :: splitCharAux rest []
      else splitCharAux rest (c :: acc)

/-- Split a path string on `'/'` (Python `s.split('/')` semantics). -/
def splitSlash (s : String) : List String :=
  (splitCharAux s.data []).map (fun l => ⟨l⟩)

/-- Join segments with `'/'` separators. -/
def joinSegs : List String → String
  | [] => ""
  | [s] => s
  | s :: rest => s ++ "/" ++ joinSegs rest

/-- Segment processing of `Path.resolve()`: empty and `.` segments are
dropped, `..` pops the stack, other segments push. -/
def resolveStack : List String → List String → List String
  | stack, [] => stack
  | stack, seg :: rest =>
      if seg = "" || seg = "." then resolveStack stack rest
      else if seg = ".." then resolveStack stack.dropLast rest
      else resolveStack (stack ++ [seg]) rest

/-- Python `str(pathlib.Path(path).resolve())` in a symlink-free model:
relative paths are resolved against the absolute working directory
`cwd`, and `.` / `..` segments are eliminated lexically. -/
def pyResolve (cwd path : String) : String :=
  let segs :=
    if headIsSlash path.data then splitSlash path
    else splitSlash cwd ++ splitSlash path
  "/" ++ joinSegs (resolveStack [] segs)

/-- Python `pathlib.Path(p).name`: the final non-empty, non-`.` component. -/
def pathFinalName (p : String) : String :=
  (((splitSlash p).filter (fun s => decide (s ≠ "") && decide (s ≠ "."))).getLast?).getD ""

/-- Python `os.path.join(a, b)` / `pathlib.Path(a) / b` for a single
component: an absolute second component overrides the first. -/
def joinPath (a b : String) : String :=
  if headIsSlash b.data then b else a ++ "/" ++ b

/-! Configuration constants of `src/files.py` and `src/main.py`. -/

def rcloneRemote : String := "GCS:media_mover_test"

def localUploadPath : String := "uploads"

def tempDownloadDir : String := "temp_downloads"

/-- Outcome of one spawned child process (`process.communicate()` plus
`process.returncode`). -/
structure ProcResult where
  exitCode : Int
  stdout : String
  stderr : String
deriving DecidableEq, Repr

/-- Subprocess oracle of a request: the result of the n-th spawned child
process, given its argument vector. -/
def ProcOracle : Type := Nat → List String → ProcResult

/-- An in-flight `HTTPException` (status code and detail). -/
structure HTTPErr where
  status : Nat
  detail : String
deriving DecidableEq, Repr

/-- Starlette `HTTPException.__str__`, the text seen by a surrounding
`except Exception as e: ... str(e)`. -/
def strOfExc (e : HTTPErr) : String := toString e.status ++ ": " ++ e.detail

/-- Listing entry as parsed from the adapter's `lsjson` output. -/
structure FileEntry where
  entryPath : String
  entryName : String
  isDir : Bool
  size : Nat
  modTime : String
deriving DecidableEq, Repr

/-- Response record of `GET /files` (class `FileItem` in `src/files.py`). -/
structure FileItem where
  id : String
  name : String
  type : String
  size : Nat
  modified : String
  path : String
deriving DecidableEq, Repr

/-- Listing translator of `src/files.py` lines 64-73: each entry becomes a
`FileItem` whose id and path are the base path joined to the entry path,
passed through one `replace("//", "/")`. -/
def lsjsonTranslate (path : String) (items : List FileEntry) : List FileItem :=
  items.map fun item =>
    { id := pyReplaceSlash (path ++ "/" ++ item.entryPath)
      name := item.entryName
      type := if item.isDir then "folder" else "file"
      size := item.size
      modified := item.modTime
      path := pyReplaceSlash (path ++ "/" ++ item.entryPath) }

/-- Response body shapes the endpoints produce. -/
inductive Body where
  | msg (m : String)
  | err (detail : String)
  | listing (l : List FileItem)
  | fileResp (localPath fname : String)
  | uploadOk (filename : String)
  | batchOk (filenames : List String) (folder : String)
deriving DecidableEq, Repr

/-- Final HTTP response of a request. -/
structure Response where
  status : Nat
  body : Body
deriving DecidableEq, Repr

/-- Detail text of an error response (empty for non-error bodies). -/
def bodyDetail : Body → String
  | .err d => d
  | _ => ""

/-- Sanitizer used by every path-accepting endpoint:
`clean = Path(path).resolve()` followed by `".." in str(clean)`. -/
def sanitizeRejects (cwd path : String) : Bool :=
  strHasSub (pyResolve cwd path) ".."

/-- Response produced when an `HTTPException` raised inside the endpoint
body propagates to the `except Exception` handler, which re-raises
`HTTPException(500, str(e))`. -/
def wrapExc (e : HTTPErr) : Response := ⟨500, .err (strOfExc e)⟩

/-- Wrapped form of the sanitizer's `HTTPException(400, "Invalid path")`. -/
def invalidPathResp : Response := wrapExc ⟨400, "Invalid path"⟩

/-- Invocations plus response, for endpoints with no other observable state. -/
structure EndpointRun where
  invocations : List (List String)
  response : Response
deriving DecidableEq, Repr

/-! `GET /files` — `list_files`, src/files.py lines 27-78. -/

def listArgv (path : String) : List String :=
  ["rclone", "lsjson", pyReplaceSlash (rcloneRemote ++ "/" ++ path),
   "--gcs-bucket-policy-only", "--no-traverse"]

def list_files (cwd path : String) (run : ProcOracle)
    (parse : String → Except String (List FileEntry)) : EndpointRun :=
  if sanitizeRejects cwd path then ⟨[], invalidPathResp⟩
  else
    let r := run 0 (listArgv path)
    if r.exitCode ≠ 0 then
      ⟨[listArgv path], wrapExc ⟨500, "Failed to list files: " ++ r.stderr⟩⟩
    else
      match parse r.stdout with
      | .error m => ⟨[listArgv path], wrapExc ⟨500, m⟩⟩
      | .ok items => ⟨[listArgv path], ⟨200, .listing (lsjsonTranslate path items)⟩⟩

/-! `DELETE /files` — `delete_file`, src/files.py lines 136-189. -/

def probeArgv (path : String) : List String :=
  ["rclone", "lsf", "--dirs-only", pyReplaceSlash (rcloneRemote ++ "/" ++ path)]

def delArgv (command path : String) : List String :=
  ["rclone", command, pyReplaceSlash (rcloneRemote ++ "/" ++ path),
   "--gcs-bucket-policy-only", "--no-traverse"]

structure DeleteRun where
  invocations : List (List String)
  command : String
  response : Response
deriving DecidableEq, Repr

def delete_file (cwd path : String) (run : ProcOracle) : DeleteRun :=
  if sanitizeRejects cwd path then ⟨[], "", invalidPathResp⟩
  else
    let probe := run 0 (probeArgv path)
    let command := if stripWs probe.stdout ≠ "" then "purge" else "delete"
    let del := run 1 (delArgv command path)
    if del.exitCode ≠ 0 then
      ⟨[probeArgv path, delArgv command path], command,
        wrapExc ⟨500, "Failed to delete " ++ command ++ ": " ++ del.stderr⟩⟩
    else
      ⟨[probeArgv path, delArgv command path], command,
        ⟨200, .msg ((if command = "purge" then "Folder" else "File") ++ " deleted successfully")⟩⟩

/-! `POST /mkdir` — `create_directory`, src/files.py lines 191-243. -/

def mkdirArgv (path : String) : List String :=
  ["rclone", "copyto", "/tmp/.keep",
   pyReplaceSlash (rcloneRemote ++ "/" ++ path ++ "/.keep"),
   "--gcs-bucket-policy-only", "--no-traverse"]

def create_directory (cwd path : String) (run : ProcOracle) : EndpointRun :=
  if sanitizeRejects cwd path then ⟨[], invalidPathResp⟩
  else
    let r := run 0 (mkdirArgv path)
    if r.exitCode ≠ 0 then
      ⟨[mkdirArgv path], wrapExc ⟨500, "Failed to create directory: " ++ r.stderr⟩⟩
    else ⟨[mkdirArgv path], ⟨200, .msg "Directory created successfully"⟩⟩

/-! `POST /move` — `move_file`, src/files.py lines 245-282. -/

def moveArgv (source destination : String) : List String :=
  ["rclone", "moveto", rcloneRemote ++ "/" ++ source,
   rcloneRemote ++ "/" ++ destination]

def move_file (cwd source destination : String) (run : ProcOracle) : EndpointRun :=
  if sanitizeRejects cwd source || sanitizeRejects cwd destination then
    ⟨[], invalidPathResp⟩
  else
    let r := run 0 (moveArgv source destination)
    if r.exitCode ≠ 0 then
      ⟨[moveArgv source destination], wrapExc ⟨500, "Failed to move file: " ++ r.stderr⟩⟩
    else ⟨[moveArgv source destination], ⟨200, .msg "File moved successfully"⟩⟩

/-! Local filesystem model: a list of file paths (directories implicit). -/

/-- Remove a file (`os.remove` / `Path.unlink`). -/
def fsRemove (fs : List String) (p : String) : List String :=
  fs.filter (fun q => q ≠ p)

/-- Is `p` a file inside directory `dir`? -/
def underDir (dir p : String) : Bool := startsWithL (dir ++ "/").data p.data

/-- Record a file as present (`rclone copy` down, or saving an upload body). -/
def fsAdd (fs : List String) (p : String) : List String :=
  if listHas fs p then fs else fs ++ [p]

/-- Observable request events, used to settle ordering claims. -/
inductive Ev where
  | spawn (argv : List String)
  | writeFile (p : String)
  | unlinkFile (p : String)
  | rmdirEv (p : String)
  | handlerDone
  | streamFile (p : String) (present : Bool)
deriving DecidableEq, Repr

/-! `GET /download` — `download_file`, src/files.py lines 80-134. -/

def downloadArgv (path : String) : List String :=
  ["rclone", "copy", rcloneRemote ++ "/" ++ path, tempDownloadDir]

structure DownloadRun where
  invocations : List (List String)
  response : Response
  events : List Ev
  finalFs : List String
deriving DecidableEq, Repr

def download_file (cwd path : String) (run : ProcOracle) (fs0 : List String) :
    DownloadRun :=
  if sanitizeRejects cwd path then ⟨[], invalidPathResp, [], fs0⟩
  else
    let localPath := joinPath tempDownloadDir (pathFinalName path)
    let r := run 0 (downloadArgv path)
    if r.exitCode ≠ 0 then
      let afterUnlink := if listHas fs0 localPath then fsRemove fs0 localPath else fs0
      let evs := [Ev.spawn (downloadArgv path)] ++
        (if listHas fs0 localPath then [Ev.unlinkFile localPath] else []) ++
        (if (afterUnlink.filter (underDir tempDownloadDir)).isEmpty then
          [Ev.rmdirEv tempDownloadDir] else [])
      ⟨[downloadArgv path], wrapExc ⟨500, "Failed to download file: " ++ r.stderr⟩,
        evs ++ [Ev.handlerDone], afterUnlink⟩
    else
      let fs1 := fsAdd fs0 localPath
      let afterUnlink := fsRemove fs1 localPath
      let evs := [Ev.spawn (downloadArgv path), Ev.writeFile localPath,
        Ev.unlinkFile localPath] ++
        (if (afterUnlink.filter (underDir tempDownloadDir)).isEmpty then
          [Ev.rmdirEv tempDownloadDir] else [])
      ⟨[downloadArgv path], ⟨200, .fileResp localPath (pathFinalName path)⟩,
        evs ++ [Ev.handlerDone], afterUnlink⟩

/-- Full request trace: the framework sends a `FileResponse` body only
after the handler has returned, reading the named local file at send
time; the stream event records whether that file still exists then. -/
def servedTrace (d : DownloadRun) : List Ev :=
  match d.response.body with
  | .fileResp p _ => d.events ++ [Ev.streamFile p (listHas d.finalFs p)]
  | _ => d.events

/-! `POST /upload/` — `upload_file`, src/main.py lines 80-128. -/

/-- An incoming multipart file body. -/
structure UFile where
  filename : String
  size : Nat
  contentType : String
deriving DecidableEq, Repr

structure UploadRun where
  invocations : List (List String)
  response : Response
  finalFs : List String
deriving DecidableEq, Repr

def uploadArgv (fileLocation : String) : List String :=
  ["rclone", "copy", fileLocation, rcloneRemote, "--no-traverse",
   "--gcs-bucket-policy-only"]

def upload_file (f : UFile) (run : ProcOracle) (fs0 : List String) : UploadRun :=
  let fileLocation := joinPath localUploadPath f.filename
  let fs1 := fsAdd fs0 fileLocation
  let r := run 0 (uploadArgv fileLocation)
  let fs2 := fsRemove fs1 fileLocation
  if r.exitCode ≠ 0 then
    ⟨[uploadArgv fileLocation],
      wrapExc ⟨500, "Failed to upload to cloud storage: " ++ r.stderr⟩, fs2⟩
  else ⟨[uploadArgv fileLocation], ⟨200, .uploadOk f.filename⟩, fs2⟩

/-! `POST /upload-multiple/` — `upload_multiple_files`, src/main.py
lines 130-226. -/

/-- The authenticated user (`models.User`), reduced to its identity. -/
structure UserRec where
  id : Nat
deriving DecidableEq, Repr

/-- Row of the `file_uploads` table (`models.FileUpload`). -/
structure FileUpload where
  filename : String
  size : Nat
  mime_type : String
  upload_path : String
  status : String
  uploaded_by : Nat
deriving DecidableEq, Repr

/-- Staging directory of the batch endpoint:
`Path(LOCAL_UPLOAD_PATH) / "temp"` — a fixed constant, computed from no
per-request data. -/
def batchTempDir : String := joinPath localUploadPath "temp"

def batchArgv (folder : String) : List String :=
  ["rclone", "copy", batchTempDir, rcloneRemote ++ "/" ++ folder,
   "--gcs-bucket-policy-only", "--no-traverse"]

/-- The `finally` block: unlink every staged file, then
`shutil.rmtree(temp_dir)` (removing everything under the staging
directory). -/
def batchCleanup (fs staged : List String) : List String :=
  (fs.filter (fun p => !(listHas staged p))).filter
    (fun p => !underDir batchTempDir p)

structure BatchRun where
  invocations : List (List String)
  response : Response
  stagedPaths : List String
  records : List FileUpload
  finalFs : List String
deriving DecidableEq, Repr

def upload_multiple_files (cwd : String) (user : UserRec) (folder : String)
    (files : List UFile) (run : ProcOracle) (fs0 : List String) : BatchRun :=
  if sanitizeRejects cwd folder then ⟨[], invalidPathResp, [], [], fs0⟩
  else
    let staged := files.map (fun f => joinPath batchTempDir f.filename)
    let fs1 := staged.foldl fsAdd fs0
    let _ := run 0 (batchArgv folder)
    let r2 := run 1 (batchArgv folder)
    let fs2 := batchCleanup fs1 staged
    if r2.exitCode ≠ 0 then
      ⟨[batchArgv folder, batchArgv folder],
        wrapExc ⟨500, "Failed to upload to cloud storage: " ++ r2.stderr⟩,
        staged, [], fs2⟩
    else
      ⟨[batchArgv folder, batchArgv folder],
        ⟨200, .batchOk (files.map (fun f => f.filename)) folder⟩,
        staged,
        files.map (fun f =>
          { filename := f.filename, size := f.size, mime_type := f.contentType,
            upload_path := pyReplaceSlash (folder ++ "/" ++ f.filename),
            status := "success", uploaded_by := user.id }),
        fs2⟩

/-! Auxiliary definitions used by the verification below. -/

/-- The pending separator of `collapseAux`'s flag, as a list. -/
def pendSlash (b : Bool) : List Char := if b then ['/'] else []

/-- Modelled from the spec's words, for comparison with the code's
translator: "identifiers composed as `basePath + entryPath` with
duplicate separators collapsed" — every maximal run of separators
collapses to a single separator. -/
def fullyCollapseAux : Bool → List Char → List Char
  | _, [] => []
  | prevSlash, c :: rest =>
      if c = '/' then
        if prevSlash then fullyCollapseAux true rest
        else '/' :: fullyCollapseAux true rest
      else c :: fullyCollapseAux false rest

/-- Spec-words identifier: base path + entry path, all duplicate
separators collapsed. -/
def specItemId (basePath entryPath : String) : String :=
  ⟨fullyCollapseAux false (basePath ++ "/" ++ entryPath).data⟩

/-- Property an error response surfaces an adapter failure with: server
error status and the child's stderr text carried inside the detail. -/
def surfacesStderr (resp : Response) (errText : String) : Prop :=
  resp.status = 500 ∧ strHasSub (bodyDetail resp.body) errText = true

/-! Concrete subprocess oracles for closed evaluations. -/

/-- Every spawn succeeds with stdout `"[]"`. -/
def runAllOk : ProcOracle := fun _ _ => ⟨0, "[]", ""⟩

/-- Every spawn fails with exit 1 and stderr `"boom"`. -/
def runAllFail : ProcOracle := fun _ _ => ⟨1, "", "boom"⟩

/-- First spawn (the delete endpoint's probe) fails with empty stdout;
later spawns succeed. -/
def runProbeFail : ProcOracle :=
  fun i _ => if i = 0 then ⟨1, "", "probe blew up"⟩ else ⟨0, "", ""⟩

/-- Every spawn succeeds with empty stdout. -/
def runEmptyProbe : ProcOracle := fun _ _ => ⟨0, "", ""⟩

/-- First spawn reports a directory listing line; later spawns succeed. -/
def runDirProbe : ProcOracle :=
  fun i _ => if i = 0 then ⟨0, "sub/\n", ""⟩ else ⟨0, "", ""⟩

/-- Parse oracle for `json.loads` that recognises the empty listing. -/
def parseNil : String → Except String (List FileEntry) :=
  fun s => if s = "[]" then .ok [] else .error "parse error"

/-! Helper lemmas. -/

lemma batchCleanup_not_staged (fs staged : List String) (p : String)
    (hp : p ∈ staged) : p ∉ batchCleanup fs staged := by
  unfold batchCleanup
  intro hmem
  rw [List.mem_filter] at hmem
  obtain ⟨h1, _⟩ := hmem
  rw [List.mem_filter] at h1
  obtain ⟨_, h2⟩ := h1
  have hhas : listHas staged p = true := by
    unfold listHas
    rw [List.any_eq_true]
    exact ⟨p, hp, by simp⟩
  simp [hhas] at h2

lemma batchCleanup_not_under (fs staged : List String) (p : String)
    (hp : p ∈ batchCleanup fs staged) : underDir batchTempDir p = false := by
  unfold batchCleanup at hp
  rw [List.mem_filter] at hp
  obtain ⟨_, h2⟩ := hp
  simpa using h2

lemma startsWithL_single (l : List Char) : startsWithL ['/'] l = headIsSlash l := by
  cases l with
  | nil => rfl
  | cons c cs => simp [startsWithL, headIsSlash, eq_comm]

/-- Soundness of the single collapsing pass: if the input (with the
pending separator restored) has no run of three separators, then the
output has no run of two, and the output starts with a separator only
if the input did. -/
lemma collapseAux_sound : ∀ (l : List Char) (b : Bool),
    containsSub ['/', '/', '/'] (pendSlash b ++ l) = false →
    containsSub ['/', '/'] (collapseAux b l) = false ∧
    (headIsSlash (collapseAux b l) = true → headIsSlash (pendSlash b ++ l) = true) := by
  intro l
  induction l with
  | nil =>
    intro b _
    cases b <;> simp [collapseAux, containsSub, startsWithL, headIsSlash, pendSlash]
  | cons c rest ih =>
    intro b hb
    cases b with
    | false =>
      by_cases hc : c = '/'
      · subst hc
        have hb' : containsSub ['/', '/', '/'] (pendSlash true ++ rest) = false := by
          simpa [pendSlash] using hb
        refine ⟨?_, ?_⟩
        · simpa [collapseAux] using (ih true hb').1
        · intro _
          simp [pendSlash, headIsSlash]
      · have hb' : containsSub ['/', '/', '/'] (pendSlash false ++ rest) = false := by
          simp only [pendSlash, if_false, List.nil_append] at hb ⊢
          simp [containsSub] at hb
          exact hb.2
        refine ⟨?_, ?_⟩
        · have h1 := (ih false hb').1
          simp [collapseAux, hc, containsSub, startsWithL, Ne.symm hc, h1]
        · intro h
          simp [collapseAux, hc, headIsSlash] at h
    | true =>
      by_cases hc : c = '/'
      · subst hc
        have hdec : headIsSlash rest = false ∧
            containsSub ['/', '/', '/'] rest = false := by
          simp only [pendSlash, if_true, List.cons_append, List.nil_append] at hb
          simp [containsSub, startsWithL, startsWithL_single] at hb
          exact ⟨hb.1, hb.2.2⟩
        have hb' : containsSub ['/', '/', '/'] (pendSlash false ++ rest) = false := by
          simpa [pendSlash] using hdec.2
        have ih1 := (ih false hb').1
        have ih2 := (ih false hb').2
        refine ⟨?_, ?_⟩
        · have hX : headIsSlash (collapseAux false rest) = false := by
            by_cases hh : headIsSlash (collapseAux false rest) = true
            · have := ih2 hh
              simp [pendSlash] at this
              rw [this] at hdec
              exact absurd hdec.1 (by simp)
            · simpa using hh
          simp [collapseAux, containsSub, startsWithL, startsWithL_single, hX, ih1]
        · intro _
          simp [pendSlash, headIsSlash]
      · have hb' : containsSub ['/', '/', '/'] (pendSlash false ++ rest) = false := by
          simp only [pendSlash, if_true, if_false, List.cons_append, List.nil_append] at hb ⊢
          simp [containsSub] at hb
          exact hb.2.2
        have ih1 := (ih false hb').1
        refine ⟨?_, ?_⟩
        · simp [collapseAux, hc, containsSub, startsWithL, Ne.symm hc, ih1]
        · intro _
          simp [pendSlash, headIsSlash]

lemma collapse_no_dd (l : List Char)
    (h : containsSub ['/', '/', '/'] l = false) :
    containsSub ['/', '/'] (collapseSlashes l) = false :=
  (collapseAux_sound l false (by simpa [pendSlash] using h)).1

lemma pyReplaceSlash_no_dd (s : String) (h : strHasSub s "///" = false) :
    strHasSub (pyReplaceSlash s) "//" = false := by
  have h2 : ("//" : String).data = ['/', '/'] := rfl
  have h3 : ("///" : String).data = ['/', '/', '/'] := rfl
  unfold strHasSub at h ⊢
  rw [h3] at h
  rw [h2]
  exact collapse_no_dd s.data h

lemma startsWithL_self (l : List Char) : startsWithL l l = true := by
  induction l with
  | nil => rfl
  | cons c cs ih => simp [startsWithL, ih]

lemma containsSub_self (l : List Char) : containsSub l l = true := by
  cases l with
  | nil => rfl
  | cons c cs => simp [containsSub, startsWithL_self]

lemma containsSub_append_left (a b s : List Char)
    (h : containsSub s b = true) : containsSub s (a ++ b) = true := by
  induction a with
  | nil => simpa using h
  | cons c cs ih => simp [containsSub, ih]

/-- The wrapped 500 response's detail text still carries the suffix `s`
of the original exception's detail. -/
lemma wrap_detail_carries (code : Nat) (pre s : String) :
    strHasSub (strOfExc ⟨code, pre ++ s⟩) s = true := by
  unfold strOfExc strHasSub
  simp only [String.data_append]
  exact containsSub_append_left _ _ _ (containsSub_append_left _ _ _ (containsSub_self _))

/-! Claim theorems. -/

/-- C1: evaluation at the failing input. The request path `"../secret"`
contains a parent-traversal segment, yet the endpoint does not return a
client error and the rclone adapter IS invoked with the raw traversal
path: `Path(path).resolve()` eliminates `..` segments before the
substring check, so the sanitizer passes, and the raw `path` (not the
resolved one) is interpolated into the rclone argument vector. The same
happens in the batch-upload endpoint with `folder = "../secret"`. This
contradicts the claim that such requests get a client error and never
reach the adapter. -/
theorem list_traversal_reaches_adapter :
    strHasSub "../secret" ".." = true ∧
    sanitizeRejects "/app" "../secret" = false ∧
    (list_files "/app" "../secret" runAllOk parseNil).response.status = 200 ∧
    (list_files "/app" "../secret" runAllOk parseNil).invocations =
      [["rclone", "lsjson", "GCS:media_mover_test/../secret",
        "--gcs-bucket-policy-only", "--no-traverse"]] ∧
    (upload_multiple_files "/app" ⟨7⟩ "../secret" [⟨"a.txt", 3, "text/plain"⟩]
        runAllOk []).invocations =
      [["rclone", "copy", "uploads/temp", "GCS:media_mover_test/../secret",
        "--gcs-bucket-policy-only", "--no-traverse"],
       ["rclone", "copy", "uploads/temp", "GCS:media_mover_test/../secret",
        "--gcs-bucket-policy-only", "--no-traverse"]] := by decide

/-- C2: in the delete endpoint, the target is first probed with the
directories-only `lsf` listing; when the probe's (stripped) stdout is
non-empty the recursive `purge` is issued and the success message names
a folder, otherwise the single-object `delete` is issued and the
message names a file. -/
theorem delete_probe_resolution (cwd path : String) (run : ProcOracle)
    (hsan : sanitizeRejects cwd path = false) :
    (stripWs (run 0 (probeArgv path)).stdout ≠ "" →
      (delete_file cwd path run).command = "purge" ∧
      (delete_file cwd path run).invocations = [probeArgv path, delArgv "purge" path] ∧
      ((run 1 (delArgv "purge" path)).exitCode = 0 →
        (delete_file cwd path run).response = ⟨200, Body.msg "Folder deleted successfully"⟩)) ∧
    (stripWs (run 0 (probeArgv path)).stdout = "" →
      (delete_file cwd path run).command = "delete" ∧
      (delete_file cwd path run).invocations = [probeArgv path, delArgv "delete" path] ∧
      ((run 1 (delArgv "delete" path)).exitCode = 0 →
        (delete_file cwd path run).response = ⟨200, Body.msg "File deleted successfully"⟩)) := by
  constructor
  · intro hne
    refine ⟨?_, ?_, ?_⟩
    · simp [delete_file, hsan, hne]
      split <;> rfl
    · simp [delete_file, hsan, hne]
      split <;> rfl
    · intro h0
      simp [delete_file, hsan, hne, h0]
  · intro he
    refine ⟨?_, ?_, ?_⟩
    · simp [delete_file, hsan, he]
      split <;> rfl
    · simp [delete_file, hsan, he]
      split <;> rfl
    · intro h0
      simp [delete_file, hsan, he, h0]

/-- C2 witness: concrete delete requests, one whose probe reports a
directory and one whose probe reports nothing. -/
theorem delete_probe_resolution_witness :
    (delete_file "/app" "d" runDirProbe).command = "purge" ∧
    (delete_file "/app" "d" runDirProbe).response =
      ⟨200, Body.msg "Folder deleted successfully"⟩ ∧
    (delete_file "/app" "f" runEmptyProbe).command = "delete" ∧
    (delete_file "/app" "f" runEmptyProbe).response =
      ⟨200, Body.msg "File deleted successfully"⟩ := by
  have h1 := delete_probe_resolution "/app" "d" runDirProbe (by decide)
  have h2 := delete_probe_resolution "/app" "f" runEmptyProbe (by decide)
  have a1 := h1.1 (by decide)
  have a2 := h2.2 (by decide)
  exact ⟨a1.1, a1.2.2 (by decide), a2.1, a2.2.2 (by decide)⟩

/-- C3: staging cleanup. The single-upload endpoint's staged file is
absent from the final local filesystem whatever the adapter's outcome,
and after a batch upload no staged file — indeed nothing under the
staging directory — survives, whatever the adapter's outcome. -/
theorem upload_staging_removed (cwd : String) (user : UserRec) (folder : String)
    (f : UFile) (files : List UFile) (run runB : ProcOracle) (fs0 fsB : List String)
    (hsan : sanitizeRejects cwd folder = false) :
    joinPath localUploadPath f.filename ∉ (upload_file f run fs0).finalFs ∧
    (∀ p ∈ (upload_multiple_files cwd user folder files runB fsB).stagedPaths,
      p ∉ (upload_multiple_files cwd user folder files runB fsB).finalFs) ∧
    (∀ p ∈ (upload_multiple_files cwd user folder files runB fsB).finalFs,
      underDir batchTempDir p = false) := by
  refine ⟨?_, ?_, ?_⟩
  · by_cases h : (run 0 (uploadArgv (joinPath localUploadPath f.filename))).exitCode ≠ 0 <;>
      simp [upload_file, h, fsRemove, List.mem_filter]
  · intro p hp hmem
    unfold upload_multiple_files at hp hmem
    rw [hsan] at hp hmem
    simp only [Bool.false_eq_true, if_false] at hp hmem
    split at hp <;> split at hmem <;>
      exact batchCleanup_not_staged _ _ _ hp hmem
  · intro p hp
    unfold upload_multiple_files at hp
    rw [hsan] at hp
    simp only [Bool.false_eq_true, if_false] at hp
    split at hp <;> exact batchCleanup_not_under _ _ _ hp

/-- C3 witness: concrete uploads whose remote copies fail, with a
pre-existing stale file under the staging directory. -/
theorem upload_staging_removed_witness :
    "uploads/a.txt" ∉ (upload_file ⟨"a.txt", 3, "text/plain"⟩ runAllFail []).finalFs ∧
    ∀ p ∈ (upload_multiple_files "/app" ⟨7⟩ "/dest" [⟨"b.txt", 1, "t"⟩]
        runAllFail ["uploads/temp/old"]).stagedPaths,
      p ∉ (upload_multiple_files "/app" ⟨7⟩ "/dest" [⟨"b.txt", 1, "t"⟩]
        runAllFail ["uploads/temp/old"]).finalFs := by
  have h := upload_staging_removed "/app" ⟨7⟩ "/dest" ⟨"a.txt", 3, "text/plain"⟩
    [⟨"b.txt", 1, "t"⟩] runAllFail runAllFail [] ["uploads/temp/old"] (by decide)
  exact ⟨h.1, h.2.1⟩

/-- C4: when the checked remote copy of a batch upload succeeds, one
FileUpload record per incoming file is inserted, each with status
`success` and `uploaded_by` equal to the authenticated user's id, and
the request succeeds; when the copy fails, no records are written and
the request fails as a whole. -/
theorem batch_upload_records (cwd : String) (user : UserRec) (folder : String)
    (files : List UFile) (run : ProcOracle) (fs0 : List String)
    (hsan : sanitizeRejects cwd folder = false) :
    ((run 1 (batchArgv folder)).exitCode = 0 →
      (upload_multiple_files cwd user folder files run fs0).records.length = files.length ∧
      (∀ r ∈ (upload_multiple_files cwd user folder files run fs0).records,
        r.status = "success" ∧ r.uploaded_by = user.id) ∧
      (upload_multiple_files cwd user folder files run fs0).response.status = 200) ∧
    ((run 1 (batchArgv folder)).exitCode ≠ 0 →
      (upload_multiple_files cwd user folder files run fs0).records = [] ∧
      (upload_multiple_files cwd user folder files run fs0).response.status = 500) := by
  constructor
  · intro h0
    refine ⟨?_, ?_, ?_⟩
    · simp [upload_multiple_files, hsan, h0]
    · intro r hr
      simp only [upload_multiple_files, hsan, Bool.false_eq_true, if_false] at hr
      simp [h0] at hr
      obtain ⟨a, ha, rfl⟩ := hr
      exact ⟨rfl, rfl⟩
    · simp [upload_multiple_files, hsan, h0]
  · intro hne
    constructor <;> simp [upload_multiple_files, hsan, hne, wrapExc]

/-- C4 witness: a successful batch upload of 3 files yields 3 success
records owned by user 7; a failing one yields none. -/
theorem batch_upload_records_witness :
    (upload_multiple_files "/app" ⟨7⟩ "/dest"
      [⟨"a.txt", 1, "t"⟩, ⟨"b.txt", 2, "t"⟩, ⟨"c.txt", 3, "t"⟩] runAllOk []).records.length = 3 ∧
    (∀ r ∈ (upload_multiple_files "/app" ⟨7⟩ "/dest"
        [⟨"a.txt", 1, "t"⟩, ⟨"b.txt", 2, "t"⟩, ⟨"c.txt", 3, "t"⟩] runAllOk []).records,
      r.status = "success" ∧ r.uploaded_by = 7) ∧
    (upload_multiple_files "/app" ⟨7⟩ "/dest"
      [⟨"a.txt", 1, "t"⟩, ⟨"b.txt", 2, "t"⟩, ⟨"c.txt", 3, "t"⟩] runAllFail []).records = [] := by
  have h1 := batch_upload_records "/app" ⟨7⟩ "/dest"
    [⟨"a.txt", 1, "t"⟩, ⟨"b.txt", 2, "t"⟩, ⟨"c.txt", 3, "t"⟩] runAllOk [] (by decide)
  have h2 := batch_upload_records "/app" ⟨7⟩ "/dest"
    [⟨"a.txt", 1, "t"⟩, ⟨"b.txt", 2, "t"⟩, ⟨"c.txt", 3, "t"⟩] runAllFail [] (by decide)
  have a := h1.1 (by decide)
  exact ⟨a.1, a.2.1, (h2.2 (by decide)).1⟩

/-- C5 counterexample: the delete endpoint's directory probe is a
spawned subprocess; here it exits with status 1, yet the endpoint
responds 200 rather than a server error carrying the probe's stderr, so
the claim quantified over every spawned subprocess is false. -/
theorem delete_probe_failure_not_surfaced :
    (runProbeFail 0 (probeArgv "some/file")).exitCode ≠ 0 ∧
    (delete_file "/app" "some/file" runProbeFail).invocations.head? =
      some (probeArgv "some/file") ∧
    (delete_file "/app" "some/file" runProbeFail).response =
      ⟨200, Body.msg "File deleted successfully"⟩ := by decide

/-- C5 amended: whenever a subprocess whose exit status the endpoint
inspects exits non-zero — that is, every spawned subprocess except the
delete endpoint's directory probe and the batch upload's first,
unchecked copy — the endpoint responds with status 500 whose detail
carries that subprocess's stderr text. -/
theorem checked_failure_surfaces_stderr (cwd path source dest folder : String)
    (user : UserRec) (f : UFile) (files : List UFile) (run : ProcOracle)
    (fs0 fsD : List String) (parse : String → Except String (List FileEntry))
    (hp : sanitizeRejects cwd path = false)
    (hs : sanitizeRejects cwd source = false)
    (hd : sanitizeRejects cwd dest = false)
    (hf : sanitizeRejects cwd folder = false) :
    ((run 0 (listArgv path)).exitCode ≠ 0 →
      surfacesStderr (list_files cwd path run parse).response
        (run 0 (listArgv path)).stderr) ∧
    ((run 0 (downloadArgv path)).exitCode ≠ 0 →
      surfacesStderr (download_file cwd path run fsD).response
        (run 0 (downloadArgv path)).stderr) ∧
    ((run 1 (delArgv (delete_file cwd path run).command path)).exitCode ≠ 0 →
      surfacesStderr (delete_file cwd path run).response
        (run 1 (delArgv (delete_file cwd path run).command path)).stderr) ∧
    ((run 0 (mkdirArgv path)).exitCode ≠ 0 →
      surfacesStderr (create_directory cwd path run).response
        (run 0 (mkdirArgv path)).stderr) ∧
    ((run 0 (moveArgv source dest)).exitCode ≠ 0 →
      surfacesStderr (move_file cwd source dest run).response
        (run 0 (moveArgv source dest)).stderr) ∧
    ((run 0 (uploadArgv (joinPath localUploadPath f.filename))).exitCode ≠ 0 →
      surfacesStderr (upload_file f run fs0).response
        (run 0 (uploadArgv (joinPath localUploadPath f.filename))).stderr) ∧
    ((run 1 (batchArgv folder)).exitCode ≠ 0 →
      surfacesStderr (upload_multiple_files cwd user folder files run fs0).response
        (run 1 (batchArgv folder)).stderr) := by
  refine ⟨?_, ?_, ?_, ?_, ?_, ?_, ?_⟩
  · intro hne
    exact ⟨by simp [list_files, hp, hne, wrapExc],
      by simpa [list_files, hp, hne, wrapExc, bodyDetail] using
        wrap_detail_carries 500 "Failed to list files: " (run 0 (listArgv path)).stderr⟩
  · intro hne
    exact ⟨by simp [download_file, hp, hne, wrapExc],
      by simpa [download_file, hp, hne, wrapExc, bodyDetail] using
        wrap_detail_carries 500 "Failed to download file: " (run 0 (downloadArgv path)).stderr⟩
  · by_cases hprobe : stripWs (run 0 (probeArgv path)).stdout ≠ ""
    · have hcmd : (delete_file cwd path run).command = "purge" := by
        simp [delete_file, hp, hprobe]
        split <;> rfl
      rw [hcmd]
      intro hne
      exact ⟨by simp [delete_file, hp, hprobe, hne, wrapExc],
        by simpa [delete_file, hp, hprobe, hne, wrapExc, bodyDetail] using
          wrap_detail_carries 500 ("Failed to delete " ++ "purge" ++ ": ")
            (run 1 (delArgv "purge" path)).stderr⟩
    · have hcmd : (delete_file cwd path run).command = "delete" := by
        simp [delete_file, hp, hprobe]
        split <;> rfl
      rw [hcmd]
      intro hne
      exact ⟨by simp [delete_file, hp, hprobe, hne, wrapExc],
        by simpa [delete_file, hp, hprobe, hne, wrapExc, bodyDetail] using
          wrap_detail_carries 500 ("Failed to delete " ++ "delete" ++ ": ")
            (run 1 (delArgv "delete" path)).stderr⟩
  · intro hne
    exact ⟨by simp [create_directory, hp, hne, wrapExc],
      by simpa [create_directory, hp, hne, wrapExc, bodyDetail] using
        wrap_detail_carries 500 "Failed to create directory: " (run 0 (mkdirArgv path)).stderr⟩
  · intro hne
    exact ⟨by simp [move_file, hs, hd, hne, wrapExc],
      by simpa [move_file, hs, hd, hne, wrapExc, bodyDetail] using
        wrap_detail_carries 500 "Failed to move file: " (run 0 (moveArgv source dest)).stderr⟩
  · intro hne
    exact ⟨by simp [upload_file, hne, wrapExc],
      by simpa [upload_file, hne, wrapExc, bodyDetail] using
        wrap_detail_carries 500 "Failed to upload to cloud storage: "
          (run 0 (uploadArgv (joinPath localUploadPath f.filename))).stderr⟩
  · intro hne
    exact ⟨by simp [upload_multiple_files, hf, hne, wrapExc],
      by simpa [upload_multiple_files, hf, hne, wrapExc, bodyDetail] using
        wrap_detail_carries 500 "Failed to upload to cloud storage: "
          (run 1 (batchArgv folder)).stderr⟩

/-- C5 witness: with every subprocess failing (exit 1, stderr `boom`),
each endpoint's checked invocation surfaces a 500 carrying `boom`. -/
theorem checked_failure_surfaces_stderr_witness :
    surfacesStderr (list_files "/app" "p" runAllFail parseNil).response "boom" ∧
    surfacesStderr (download_file "/app" "p" runAllFail []).response "boom" ∧
    surfacesStderr (delete_file "/app" "p" runAllFail).response "boom" ∧
    surfacesStderr (create_directory "/app" "p" runAllFail).response "boom" ∧
    surfacesStderr (move_file "/app" "s" "d" runAllFail).response "boom" ∧
    surfacesStderr (upload_file ⟨"a.txt", 3, "t"⟩ runAllFail []).response "boom" ∧
    surfacesStderr (upload_multiple_files "/app" ⟨7⟩ "/f" [] runAllFail []).response "boom" := by
  have h := checked_failure_surfaces_stderr "/app" "p" "s" "d" "/f" ⟨7⟩ ⟨"a.txt", 3, "t"⟩
    [] runAllFail [] [] parseNil (by decide) (by decide) (by decide) (by decide)
  exact ⟨h.1 (by decide), h.2.1 (by decide), h.2.2.1 (by decide), h.2.2.2.1 (by decide),
    h.2.2.2.2.1 (by decide), h.2.2.2.2.2.1 (by decide), h.2.2.2.2.2.2 (by decide)⟩

/-- C6: evaluation at the failing input. The path `"/a..b"` survives
`resolve()` and fails the substring check, so the sanitizer raises
`HTTPException(400, "Invalid path")`; but the surrounding
`except Exception` catches it and re-raises status 500, so the caller
receives a server error, not the claimed client error — the adapter is
correctly never invoked. -/
theorem sanitizer_rejection_returns_500 :
    (list_files "/app" "/a..b" runAllOk parseNil).invocations = [] ∧
    (list_files "/app" "/a..b" runAllOk parseNil).response.status = 500 ∧
    bodyDetail (list_files "/app" "/a..b" runAllOk parseNil).response.body =
      "400: Invalid path" := by decide

/-- C7: evaluation at the failing input. On a successful copy-down the
handler's `finally` block unlinks the local copy (and removes the
emptied transient directory) before the handler returns, and the
framework streams the `FileResponse` only after the handler has
returned — so at stream time the file is already gone (`present`
flag `false`), contradicting the claimed stream-then-delete order. -/
theorem download_unlinks_before_streaming :
    servedTrace (download_file "/app" "docs/file.txt" runAllOk []) =
      [Ev.spawn (downloadArgv "docs/file.txt"),
       Ev.writeFile "temp_downloads/file.txt",
       Ev.unlinkFile "temp_downloads/file.txt",
       Ev.rmdirEv "temp_downloads",
       Ev.handlerDone,
       Ev.streamFile "temp_downloads/file.txt" false] ∧
    (download_file "/app" "docs/file.txt" runAllOk []).response.status = 200 := by decide

/-- C8 counterexample: two distinct batch-upload requests (different
working directory, user, destination folder, oracle and starting
filesystem) stage a same-named file at the identical staging path
`uploads/temp/a.txt`, so staging is not unique per request. -/
theorem batch_staging_path_shared :
    (upload_multiple_files "/app" ⟨1⟩ "/x" [⟨"a.txt", 1, "t"⟩] runAllOk []).stagedPaths =
      (upload_multiple_files "/srv" ⟨2⟩ "/y" [⟨"a.txt", 9, "u"⟩] runAllOk ["junk"]).stagedPaths ∧
    (upload_multiple_files "/app" ⟨1⟩ "/x" [⟨"a.txt", 1, "t"⟩] runAllOk []).stagedPaths =
      ["uploads/temp/a.txt"] := by decide

/-- C8 amended: every batch upload stages its files in the fixed shared
directory `uploads/temp`; the staged paths depend only on the incoming
filenames, so any two batch requests carrying the same filenames write
the same staging paths. -/
theorem batch_staging_fixed (cwd cwd' : String) (u u' : UserRec) (folder folder' : String)
    (files files' : List UFile) (run run' : ProcOracle) (fs fs' : List String)
    (hsan : sanitizeRejects cwd folder = false)
    (hsan' : sanitizeRejects cwd' folder' = false) :
    (upload_multiple_files cwd u folder files run fs).stagedPaths =
      files.map (fun f => joinPath batchTempDir f.filename) ∧
    (files.map (fun f => f.filename) = files'.map (fun f => f.filename) →
      (upload_multiple_files cwd u folder files run fs).stagedPaths =
        (upload_multiple_files cwd' u' folder' files' run' fs').stagedPaths) := by
  have key : ∀ (c : String) (u2 : UserRec) (fo : String) (fl : List UFile)
      (r2 : ProcOracle) (f2 : List String), sanitizeRejects c fo = false →
      (upload_multiple_files c u2 fo fl r2 f2).stagedPaths =
        fl.map (fun f => joinPath batchTempDir f.filename) := by
    intro c u2 fo fl r2 f2 hsan2
    simp only [upload_multiple_files, hsan2, Bool.false_eq_true, if_false]
    split <;> rfl
  refine ⟨key _ _ _ _ _ _ hsan, fun hfn => ?_⟩
  rw [key _ _ _ _ _ _ hsan, key _ _ _ _ _ _ hsan']
  have hm : ∀ (l : List UFile), l.map (fun f => joinPath batchTempDir f.filename) =
      (l.map (fun f => f.filename)).map (fun n => joinPath batchTempDir n) := by
    intro l
    rw [List.map_map]
    rfl
  rw [hm, hm, hfn]

/-- C8 amended witness: two concrete requests with the same filename. -/
theorem batch_staging_fixed_witness :
    (upload_multiple_files "/a" ⟨1⟩ "/x" [⟨"f.txt", 1, "t"⟩] runAllOk []).stagedPaths =
      ["uploads/temp/f.txt"] ∧
    (upload_multiple_files "/a" ⟨1⟩ "/x" [⟨"f.txt", 1, "t"⟩] runAllOk []).stagedPaths =
      (upload_multiple_files "/b" ⟨2⟩ "/y" [⟨"f.txt", 2, "u"⟩] runAllFail ["z"]).stagedPaths := by
  have h := batch_staging_fixed "/a" "/b" ⟨1⟩ ⟨2⟩ "/x" "/y" [⟨"f.txt", 1, "t"⟩]
    [⟨"f.txt", 2, "u"⟩] runAllOk runAllFail [] ["z"] (by decide) (by decide)
  exact ⟨h.1, h.2 (by decide)⟩

/-- C9 counterexample: with base path `"/a//"` and entry path `"b"`, the
translator's single `replace("//", "/")` pass turns the three
consecutive separators of `"/a///b"` into two, producing the identifier
`"/a//b"`, which still contains a duplicate separator — whereas full
collapse (the spec's wording) gives `"/a/b"`. -/
theorem translator_leaves_double_separator :
    (lsjsonTranslate "/a//" [⟨"b", "b", false, 0, "t"⟩]).map (fun fi => fi.id) =
      ["/a//b"] ∧
    specItemId "/a//" "b" = "/a/b" ∧
    ("/a//b" : String) ≠ "/a/b" ∧
    strHasSub "/a//b" "//" = true := by decide

/-- C9 amended: each identifier is the base path joined to the entry
path with one non-overlapping left-to-right pass of replacing `"//"` by
`"/"`; when the joined path has no run of three or more separators,
this pass collapses all duplicate separators (no `"//"` remains). -/
theorem translator_single_pass_collapse (base : String) (items : List FileEntry)
    (h3 : ∀ e ∈ items, strHasSub (base ++ "/" ++ e.entryPath) "///" = false) :
    (lsjsonTranslate base items).map (fun fi => fi.id) =
      items.map (fun e => pyReplaceSlash (base ++ "/" ++ e.entryPath)) ∧
    ∀ fi ∈ lsjsonTranslate base items, strHasSub fi.id "//" = false := by
  constructor
  · simp [lsjsonTranslate, List.map_map]
  · intro fi hfi
    simp only [lsjsonTranslate, List.mem_map] at hfi
    obtain ⟨e, he, rfl⟩ := hfi
    exact pyReplaceSlash_no_dd _ (h3 e he)

/-- C9 amended witness: a concrete listing with no triple separator. -/
theorem translator_single_pass_collapse_witness :
    (lsjsonTranslate "/docs" [⟨"r.txt", "r.txt", false, 1, "t"⟩]).map (fun fi => fi.id) =
      ["/docs/r.txt"] ∧
    ∀ fi ∈ lsjsonTranslate "/docs" [⟨"r.txt", "r.txt", false, 1, "t"⟩],
      strHasSub fi.id "//" = false := by
  have h := translator_single_pass_collapse "/docs" [⟨"r.txt", "r.txt", false, 1, "t"⟩]
    (by decide)
  exact ⟨h.1, h.2⟩

/-- C10: the delete endpoint's outcome depends on the probe only through
its (stripped) stdout — the probe's exit status and stderr are never
inspected — and with empty probe stdout the single-object `delete` form
is issued and a succeeding delete yields the plain success response, so
a failed probe is never surfaced to the caller. -/
theorem delete_probe_outcome_ignored (cwd path : String) (run run' : ProcOracle)
    (hsan : sanitizeRejects cwd path = false)
    (hstdout : stripWs (run 0 (probeArgv path)).stdout =
      stripWs (run' 0 (probeArgv path)).stdout)
    (hrest : ∀ a, run 1 a = run' 1 a) :
    delete_file cwd path run = delete_file cwd path run' ∧
    (stripWs (run 0 (probeArgv path)).stdout = "" →
      (delete_file cwd path run).command = "delete" ∧
      ((run 1 (delArgv "delete" path)).exitCode = 0 →
        (delete_file cwd path run).response =
          ⟨200, Body.msg "File deleted successfully"⟩)) := by
  constructor
  · simp only [delete_file, hsan, Bool.false_eq_true, if_false, hstdout, hrest]
  · intro he
    constructor
    · simp [delete_file, hsan, he]
      split <;> rfl
    · intro h0
      simp [delete_file, hsan, he, h0]

/-- C10 witness: a probe failing with exit 1 behaves identically to a
probe succeeding with exit 0 (same empty stdout), and the request still
returns the plain delete success. -/
theorem delete_probe_outcome_ignored_witness :
    delete_file "/app" "f" runProbeFail = delete_file "/app" "f" runEmptyProbe ∧
    (delete_file "/app" "f" runProbeFail).response =
      ⟨200, Body.msg "File deleted successfully"⟩ := by
  have h := delete_probe_outcome_ignored "/app" "f" runProbeFail runEmptyProbe
    (by decide) (by decide) (fun a => rfl)
  exact ⟨h.1, (h.2 (by decide)).2 (by decide)⟩

end RcloneAPI
